import Mathlib

/-
Formal model of the staged workflow-enforcement engine
(scripts/workflow_state_machine.py, skills/workflow-enforcement/stage_gate_validator.py,
hooks/reprompt_timer.py).

The Python code manipulates JSON-like dictionaries; we embed those as the
inductive type `Value` below.  Operations that can raise in Python
(`in` on a non-container, `.get` on a non-dict, subscripting) are embedded
in the `Except String` monad, with the error string naming the Python
exception class that would be raised.  File-system effects (evidence-file
existence probes) are passed in as an explicit oracle `String → Bool`;
wall-clock timestamps are passed in as strings where they are persisted and
are otherwise omitted.
-/

/-- JSON-like Python values: `None`, booleans, integers, strings, lists and
dicts with string keys (association lists in insertion order, as Python
dicts preserve insertion order). -/
inductive Value where
  | null : Value
  | bool : Bool → Value
  | num : Int → Value
  | str : String → Value
  | list : List Value → Value
  | obj : List (String × Value) → Value
deriving Repr

mutual

/-- Structural equality on values (Python `==` restricted to the JSON
fragment; the only cross-type Python equality, `True == 1`, never arises in
the comparisons the code performs, which are against `None`, `""` and
string enum members). -/
def Value.beq : Value → Value → Bool
  | .null, .null => true
  | .bool a, .bool b => a == b
  | .num a, .num b => a == b
  | .str a, .str b => a == b
  | .list a, .list b => Value.beqList a b
  | .obj a, .obj b => Value.beqObj a b
  | _, _ => false

def Value.beqList : List Value → List Value → Bool
  | [], [] => true
  | a :: as, b :: bs => Value.beq a b && Value.beqList as bs
  | _, _ => false

def Value.beqObj : List (String × Value) → List (String × Value) → Bool
  | [], [] => true
  | (k₁, v₁) :: as, (k₂, v₂) :: bs =>
    k₁ == k₂ && Value.beq v₁ v₂ && Value.beqObj as bs
  | _, _ => false

end

instance : BEq Value := ⟨Value.beq⟩

/-- Python truthiness: `None`, `False`, `0`, `""`, `[]` and `{}` are falsy. -/
def pyTruthy : Value → Bool
  | .null => false
  | .bool b => b
  | .num n => n != 0
  | .str s => s != ""
  | .list l => !l.isEmpty
  | .obj d => !d.isEmpty

/-- Whether a value is a Python `dict` (`isinstance(v, dict)`). -/
def isDict : Value → Bool
  | .obj _ => true
  | _ => false

/-- Python substring test `pat in s` on strings. -/
def strContains (s pat : String) : Bool :=
  pat == "" || (s.splitOn pat).length ≥ 2

/-- Python membership test `k in v` for a string `k`.  Dicts test key
membership, strings test substring, lists test element equality; `in` on
any other value raises `TypeError`. -/
def pyContains (v : Value) (k : String) : Except String Bool :=
  match v with
  | .obj d => .ok (d.any (fun p => p.1 == k))
  | .str s => .ok (strContains s k)
  | .list l => .ok (l.any (fun w => w == .str k))
  | _ => .error "TypeError: argument is not iterable"

/-- Python subscript `v[k]` with a string key: only dicts support it. -/
def pySubscript (v : Value) (k : String) : Except String Value :=
  match v with
  | .obj d =>
    match List.lookup k d with
    | some w => .ok w
    | none => .error "KeyError"
  | _ => .error "TypeError: value is not subscriptable"

/-- Python `v.get(k, default)`: only dicts have `.get`; anything else
raises `AttributeError`. -/
def pyGetD (v : Value) (k : String) (default : Value) : Except String Value :=
  match v with
  | .obj d => .ok ((List.lookup k d).getD default)
  | _ => .error "AttributeError: value has no attribute get"

/-- Decimal digit character for `d < 10`. -/
def digitChar (d : Nat) : Char := Char.ofNat (48 + d)

/-- Decimal digits of a natural number, least-significant first; `fuel`
bounds the recursion depth structurally (any `fuel > n` is enough). -/
def natDigitsRevAux : Nat → Nat → List Char
  | 0, _ => []
  | f + 1, n =>
    if n < 10 then [digitChar n]
    else digitChar (n % 10) :: natDigitsRevAux f (n / 10)

/-- Decimal digits of a natural number, least-significant first. -/
def natDigitsRev (n : Nat) : List Char := natDigitsRevAux (n + 1) n

/-- Decimal representation of a natural number (Python `str(n)` for `n ≥ 0`). -/
def natRepr (n : Nat) : String := ⟨(natDigitsRev n).reverse⟩

/-- Python `str(n)` for an integer. -/
def intRepr (n : Int) : String :=
  if n < 0 then "-" ++ natRepr n.natAbs else natRepr n.natAbs

mutual

/-- Python `repr` of a value (used when a value is interpolated inside a
list or dict display). -/
def pyRepr : Value → String
  | .null => "None"
  | .bool b => if b then "True" else "False"
  | .num n => intRepr n
  | .str s => "'" ++ s ++ "'"
  | .list l => "[" ++ String.intercalate ", " (pyReprList l) ++ "]"
  | .obj d => "\x7b" ++ String.intercalate ", " (pyReprObj d) ++ "\x7d"

def pyReprList : List Value → List String
  | [] => []
  | v :: vs => pyRepr v :: pyReprList vs

def pyReprObj : List (String × Value) → List String
  | [] => []
  | (k, v) :: d => ("'" ++ k ++ "': " ++ pyRepr v) :: pyReprObj d

end

/-- Python `str` of a value (as used by f-string interpolation). -/
def pyStr : Value → String
  | .null => "None"
  | .bool b => if b then "True" else "False"
  | .num n => intRepr n
  | .str s => s
  | .list l => pyRepr (.list l)
  | .obj d => pyRepr (.obj d)

/-- Python `type(v).__name__`. -/
def pyTypeName : Value → String
  | .null => "NoneType"
  | .bool _ => "bool"
  | .num _ => "int"
  | .str _ => "str"
  | .list _ => "list"
  | .obj _ => "dict"

/-- The Python classes used in the schemas' `types` constraints. -/
inductive PyType where
  | list : PyType
  | bool : PyType
  | int : PyType
deriving DecidableEq, Repr

/-- Python `expected_type.__name__` for the `types` constraints. -/
def PyType.name : PyType → String
  | .list => "list"
  | .bool => "bool"
  | .int => "int"

/-- Python `isinstance(v, t)`; note `bool` is a subclass of `int`. -/
def pyIsInstance (v : Value) : PyType → Bool
  | .list => match v with | .list _ => true | _ => false
  | .bool => match v with | .bool _ => true | _ => false
  | .int => match v with | .num _ => true | .bool _ => true | _ => false

/-- Python dict assignment `d[k] = v`: replaces the value of an existing
key in place, otherwise appends the new binding at the end. -/
def updateAssoc {α β : Type} [BEq α] (l : List (α × β)) (k : α) (v : β) :
    List (α × β) :=
  if l.any (fun p => p.1 == k) then
    l.map (fun p => if p.1 == k then (k, v) else p)
  else l ++ [(k, v)]

/-! ## `scripts/workflow_state_machine.py` -/

namespace WSM

/-- Workflow stages (`class Stage(Enum)`). -/
inductive Stage where
  | STARTUP | PLAN | REVIEW | DISRUPT | IMPLEMENT | TEST
  | REVIEW_POST | VALIDATE | LEARN | COMPLETE | FAILED
deriving DecidableEq, BEq, Repr

/-- The Python enum member name `stage.name`. -/
def Stage.name : Stage → String
  | .STARTUP => "STARTUP"
  | .PLAN => "PLAN"
  | .REVIEW => "REVIEW"
  | .DISRUPT => "DISRUPT"
  | .IMPLEMENT => "IMPLEMENT"
  | .TEST => "TEST"
  | .REVIEW_POST => "REVIEW_POST"
  | .VALIDATE => "VALIDATE"
  | .LEARN => "LEARN"
  | .COMPLETE => "COMPLETE"
  | .FAILED => "FAILED"

/-- `Stage[name]` lookup; `none` models the `KeyError` on an unknown name. -/
def stageOfName : String → Option Stage
  | "STARTUP" => some .STARTUP
  | "PLAN" => some .PLAN
  | "REVIEW" => some .REVIEW
  | "DISRUPT" => some .DISRUPT
  | "IMPLEMENT" => some .IMPLEMENT
  | "TEST" => some .TEST
  | "REVIEW_POST" => some .REVIEW_POST
  | "VALIDATE" => some .VALIDATE
  | "LEARN" => some .LEARN
  | "COMPLETE" => some .COMPLETE
  | "FAILED" => some .FAILED
  | _ => none

/-- Lowercase form of the stage's enum name, as produced by
`stage.name.lower()` in the log-file names. -/
def Stage.lowerName : Stage → String
  | .STARTUP => "startup"
  | .PLAN => "plan"
  | .REVIEW => "review"
  | .DISRUPT => "disrupt"
  | .IMPLEMENT => "implement"
  | .TEST => "test"
  | .REVIEW_POST => "review_post"
  | .VALIDATE => "validate"
  | .LEARN => "learn"
  | .COMPLETE => "complete"
  | .FAILED => "failed"

/-- `stage.name.replace("_POST", "")`, the gate-lookup normalisation: on
the eleven enum names the only one containing `_POST` is `REVIEW_POST`, so
this strips it to `REVIEW` and leaves every other name unchanged. -/
def gateStageName : Stage → String
  | .REVIEW_POST => "REVIEW"
  | s => s.name

/-- Quality gate actions (`class GateAction(Enum)`). -/
inductive GateAction where
  | proceed | revise | escalate | stop
deriving DecidableEq, BEq, Repr

/-- The string value of a gate action (`action.value`). -/
def GateAction.val : GateAction → String
  | .proceed => "proceed"
  | .revise => "revise"
  | .escalate => "escalate"
  | .stop => "stop"

/-- Result of a quality gate check (`@dataclass GateResult`).  The
`timestamp` field, filled from the wall clock at construction, is not
modelled. -/
structure GateResult where
  stage : String
  valid : Bool
  checked : List String
  errors : List String
  action : GateAction
  retry : Nat
deriving DecidableEq, Repr

/-- The identifier regexes appearing in the schemas' `patterns` tables. -/
inductive RegexPat where
  /-- `^E-[A-Z]+-[\w.]+-\d{3}$` -/
  | evidenceId : RegexPat
  /-- `^C-\d{8}T\d{6}$` -/
  | conflictId : RegexPat
  /-- `^R-\d{8}T\d{6}$` -/
  | recoveryId : RegexPat
  /-- `^E-\w+-[\w.]+-\d+$` (the looser variant in `stage_gate_validator.py`) -/
  | evidenceIdLoose : RegexPat
deriving DecidableEq, Repr

/-- The pattern's source text, as interpolated into error messages. -/
def RegexPat.source : RegexPat → String
  | .evidenceId => "^E-[A-Z]+-[\\w.]+-\\d{3}$"
  | .conflictId => "^C-\\d{8}T\\d{6}$"
  | .recoveryId => "^R-\\d{8}T\\d{6}$"
  | .evidenceIdLoose => "^E-\\w+-[\\w.]+-\\d+$"

/-- Python `\w` character class (ASCII fragment; the ids the code builds are
ASCII). -/
def isWordChar (c : Char) : Bool :=
  c.isAlphanum || c == '_'

/-- Python `re.match` anchors at the start; all four patterns end in `$`, so
they match the whole string, except that `$` also matches just before one
trailing newline. -/
def stripFinalNewline (s : String) : String :=
  if s.endsWith "\n" then s.dropRight 1 else s

/-- Matcher for `^E-<seg1>-<seg2>-<seg3>$` id shapes.  None of the three
character classes contains `-`, so the regex matches exactly when splitting
on `-` yields `["E", seg1, seg2, seg3]` with each segment in its class. -/
def matchSegmentedId (seg1 : Char → Bool) (seg3Exact : Option Nat)
    (s : String) : Bool :=
  match (stripFinalNewline s).splitOn "-" with
  | [e, a, b, c] =>
    e == "E" && a ≠ "" && a.all seg1 && b ≠ "" && b.all (fun ch => isWordChar ch || ch == '.') &&
    c ≠ "" && c.all Char.isDigit &&
    (match seg3Exact with | some n => c.length == n | none => true)
  | _ => false

/-- Matcher for `^<p>-\d{8}T\d{6}$`. -/
def matchStampId (p : Char) (s : String) : Bool :=
  match (stripFinalNewline s).splitOn "-" with
  | [e, rest] =>
    e == String.singleton p && rest.length == 15 &&
    (rest.take 8).all Char.isDigit && rest.get? ⟨8⟩ == some 'T' &&
    (rest.drop 9).all Char.isDigit
  | _ => false

/-- `re.match(pattern, s)` viewed as a whole-string acceptor. -/
def RegexPat.accepts : RegexPat → String → Bool
  | .evidenceId, s => matchSegmentedId (fun c => c.isUpper) (some 3) s
  | .conflictId, s => matchStampId 'C' s
  | .recoveryId, s => matchStampId 'R' s
  | .evidenceIdLoose, s => matchSegmentedId isWordChar none s

/-- One entry of the `SCHEMAS` table: required top-level fields, required
nested fields (under `metadata` / `context`), enum constraints, identifier
patterns and type constraints. -/
structure Schema where
  required : List String := []
  metadata_required : List String := []
  context_required : List String := []
  enums : List (String × List String) := []
  patterns : List (String × RegexPat) := []
  types : List (String × PyType) := []

/-- Schema definitions (`SCHEMAS`, from SCHEMAS.md). -/
def SCHEMAS : List (String × Schema) := [
  ("todo", {
    required := ["id", "content", "status", "priority", "metadata"],
    metadata_required := [
      "objective", "success_criteria", "fail_criteria", "evidence_required",
      "evidence_location", "agent_model", "workflow", "blocked_by", "parallel",
      "workflow_stage", "instructions_set", "time_budget", "reviewer"],
    enums := [
      ("status", ["pending", "in_progress", "completed", "blocked", "failed"]),
      ("priority", ["high", "medium", "low"]),
      ("evidence_required", ["log", "output", "test_result", "diff", "screenshot", "api_response"]),
      ("workflow_stage", ["PLAN", "REVIEW", "DISRUPT", "IMPLEMENT", "TEST", "VALIDATE", "LEARN"]),
      ("agent_model", ["Claude", "GPT", "Ollama"])],
    types := [("blocked_by", .list), ("parallel", .bool)] }),
  ("evidence", {
    required := ["id", "type", "claim", "location", "timestamp", "verified", "verified_by"],
    patterns := [("id", .evidenceId)],
    enums := [
      ("type", ["log", "output", "test_result", "diff", "screenshot", "api_response"]),
      ("verified_by", ["agent", "third-party", "user"])],
    types := [("verified", .bool)] }),
  ("review_gate", {
    required := ["stage", "agent", "timestamp", "criteria_checked", "approved", "action"],
    enums := [
      ("action", ["proceed", "revise", "escalate"]),
      ("stage", ["PLAN", "REVIEW", "DISRUPT", "IMPLEMENT", "TEST", "VALIDATE", "LEARN"])],
    types := [("criteria_checked", .list), ("approved", .bool)] }),
  ("conflict", {
    required := ["id", "type", "parties", "positions"],
    patterns := [("id", .conflictId)],
    enums := [("type", ["plan_disagreement", "evidence_dispute", "priority_conflict", "resource_conflict"])],
    types := [("parties", .list), ("positions", .list)] }),
  ("metrics", {
    required := ["workflow_id", "timestamp", "total_time_min", "stages", "agents", "evidence", "quality"],
    types := [("total_time_min", .int)] }),
  ("skill", {
    required := ["name", "source", "purpose", "interface", "tested", "evidence_location"],
    types := [("tested", .bool)] }),
  ("startup", {
    required := ["mcp_verified", "scheduler_active", "memory_ok", "env_ready", "workflow_dir", "timestamp"],
    types := [("mcp_verified", .bool), ("scheduler_active", .bool), ("memory_ok", .bool), ("env_ready", .bool)] }),
  ("recovery", {
    required := ["id", "trigger", "rollback_to", "state_before", "state_after", "success", "resume_stage"],
    patterns := [("id", .recoveryId)],
    enums := [("resume_stage", ["PLAN", "REVIEW", "DISRUPT", "IMPLEMENT", "TEST", "VALIDATE", "LEARN"])],
    types := [("success", .bool)] }),
  ("handoff", {
    required := ["from_agent", "to_agent", "timestamp", "context"],
    context_required := ["user_objective", "current_stage", "completed_stages",
      "todos_remaining", "evidence_collected", "blockers", "assumptions", "memory_refs"],
    types := [("completed_stages", .list), ("todos_remaining", .list), ("evidence_collected", .list),
      ("blockers", .list), ("assumptions", .list), ("memory_refs", .list)] })]

/-- Quality gates per stage (`QUALITY_GATES`). -/
def QUALITY_GATES : List (String × List String) := [
  ("PLAN", ["todo", "evidence"]),
  ("REVIEW", ["review_gate", "evidence"]),
  ("DISRUPT", ["conflict", "evidence"]),
  ("IMPLEMENT", ["todo", "evidence"]),
  ("TEST", ["evidence", "metrics"]),
  ("VALIDATE", ["review_gate", "evidence"]),
  ("LEARN", ["skill", "metrics"])]

/-- MCP servers required for startup (`MCP_SERVERS`). -/
def MCP_SERVERS : List String := [
  "memory", "todo", "sequential-thinking", "git", "github",
  "scheduler", "openai-chat", "credentials", "mcp-gateway", "claude-context"]

def MAX_RETRY : Nat := 3

/-- The `required` loop of `validate_schema`: a field is missing when it is
absent, `None`, or `""`; errors accumulate in field order. -/
def requiredErrors (data : Value) : List String → Except String (List String)
  | [] => .ok []
  | f :: fs => do
    let c ← pyContains data f
    let missing ← if c then do
        let v ← pySubscript data f
        pure (v == Value.null || v == Value.str "")
      else pure true
    let rest ← requiredErrors data fs
    pure ((if missing then ["Missing: " ++ f] else []) ++ rest)

/-- The nested-required loop of `validate_schema` for one sub-object name
(`metadata` or `context`): `nested_data = data.get(nested, {})`, then a
presence check. -/
def nestedRequiredErrors (data : Value) (nested : String) :
    List String → Except String (List String)
  | [] => .ok []
  | f :: fs => do
    let nested_data ← pyGetD data nested (.obj [])
    let c ← pyContains nested_data f
    let rest ← nestedRequiredErrors data nested fs
    pure ((if c then [] else ["Missing: " ++ nested ++ "." ++ f]) ++ rest)

/-- `data.get(field_name) or data.get("metadata", {}).get(field_name)`:
the metadata fallback is only evaluated (and can only raise) when the
top-level value is falsy. -/
def getWithMetaFallback (data : Value) (f : String) : Except String Value := do
  let top ← pyGetD data f .null
  if pyTruthy top then pure top
  else do
    let md ← pyGetD data "metadata" (.obj [])
    pyGetD md f .null

/-- The enum loop of `validate_schema`: a truthy value outside the allowed
set is an error. -/
def enumErrors (data : Value) :
    List (String × List String) → Except String (List String)
  | [] => .ok []
  | (f, allowed) :: rest => do
    let val ← getWithMetaFallback data f
    let tail ← enumErrors data rest
    pure ((if pyTruthy val && !(allowed.any (fun a => val == .str a)) then
        [f ++ ": '" ++ pyStr val ++ "' not in " ++ pyRepr (.list (allowed.map .str))]
      else []) ++ tail)

/-- The pattern loop of `validate_schema`: a present, truthy value whose
`str()` fails the regex is an error. -/
def patternErrors (data : Value) :
    List (String × RegexPat) → Except String (List String)
  | [] => .ok []
  | (f, pat) :: rest => do
    let c ← pyContains data f
    let here ← if c then do
        let v ← pySubscript data f
        pure (if pyTruthy v && !pat.accepts (pyStr v) then
            [f ++ ": pattern mismatch (expected " ++ pat.source ++ ")"]
          else [])
      else pure []
    let tail ← patternErrors data rest
    pure (here ++ tail)

/-- The type loop of `validate_schema`: a non-`None` value of the wrong
Python class is an error. -/
def typeErrors (data : Value) :
    List (String × PyType) → Except String (List String)
  | [] => .ok []
  | (f, t) :: rest => do
    let val ← getWithMetaFallback data f
    let tail ← typeErrors data rest
    pure ((if val != Value.null && !pyIsInstance val t then
        [f ++ ": expected " ++ t.name ++ ", got " ++ pyTypeName val]
      else []) ++ tail)

/-- `validate_schema(data, schema_name)`.  Returns `(valid, errors)` with
`valid = (len(errors) == 0)`; an unknown schema name returns a single
explanatory error before any access to `data`. -/
def validate_schema (data : Value) (schema_name : String) :
    Except String (Bool × List String) :=
  match List.lookup schema_name SCHEMAS with
  | none => .ok (false, ["Unknown schema: " ++ schema_name])
  | some schema => do
    -- Unwrap nested (e.g. {"evidence": {...}} -> {...})
    let c ← pyContains data schema_name
    let data ← if c then do
        let inner ← pySubscript data schema_name
        pure (if isDict inner then inner else data)
      else pure data
    let errs₁ ← requiredErrors data schema.required
    let errs₂ ← nestedRequiredErrors data "metadata" schema.metadata_required
    let errs₃ ← nestedRequiredErrors data "context" schema.context_required
    let errs₄ ← enumErrors data schema.enums
    let errs₅ ← patternErrors data schema.patterns
    let errs₆ ← typeErrors data schema.types
    let errors := errs₁ ++ errs₂ ++ errs₃ ++ errs₄ ++ errs₅ ++ errs₆
    pure (errors.isEmpty, errors)

/-- `detect_schema(data)`: fixed-priority wrapper-key probe, with a todo
detected through `metadata.objective`. -/
def detect_schema (data : Value) : Except String (Option String) := do
  if (← pyContains data "evidence") then pure (some "evidence") else
  if (← pyContains data "handoff") then pure (some "handoff") else
  if (← pyContains data "review_gate") then pure (some "review_gate") else
  if (← pyContains data "conflict") then pure (some "conflict") else
  if (← pyContains data "metrics") then pure (some "metrics") else
  if (← pyContains data "skill") then pure (some "skill") else
  if (← pyContains data "startup") then pure (some "startup") else
  if (← pyContains data "recovery") then pure (some "recovery") else
  if (← pyContains data "metadata") then do
    let md ← pyGetD data "metadata" (.obj [])
    if (← pyContains md "objective") then pure (some "todo") else pure none
  else pure none

/-- The per-output loop of `quality_gate`: detect each output's schema,
validate matched outputs, and accumulate `(checked, errors)` in order;
unmatched outputs contribute nothing. -/
def gateScan : List Value → Except String (List String × List String)
  | [] => .ok ([], [])
  | out :: rest => do
    let s? ← detect_schema out
    let (c₁, e₁) ← match s? with
      | some s => do
        let (valid, errs) ← validate_schema out s
        pure ([s], if valid then [] else errs.map (fun e => "[" ++ s ++ "] " ++ e))
      | none => pure (([] : List String), ([] : List String))
    let (cs, es) ← gateScan rest
    pure (c₁ ++ cs, e₁ ++ es)

/-- The evidence-file loop of `quality_gate`: for each output wrapped under
`"evidence"`, a declared, truthy `location` must exist on disk (probed via
the `fexists` oracle). -/
def evidenceFileErrors (fexists : String → Bool) :
    List Value → Except String (List String)
  | [] => .ok []
  | out :: rest => do
    let c ← pyContains out "evidence"
    let here ← if c then do
        let ev ← pySubscript out "evidence"
        let loc ← pyGetD ev "location" .null
        if pyTruthy loc then
          match loc with
          | .str s => pure (if fexists s then [] else ["Evidence file missing: " ++ s])
          | _ => .error "TypeError: Path() argument is not a str"
        else pure []
      else pure []
    let tail ← evidenceFileErrors fexists rest
    pure (here ++ tail)

/-- `WorkflowMachine.quality_gate(stage, outputs, retry)`.  `REVIEW_POST`
is normalised to `REVIEW` for the gate lookup.  The persisted log entry is
modelled separately by `gate_log_key`; `result.valid` is `False` exactly
when an error was appended, so it equals `errors.isEmpty`. -/
def quality_gate (stage : Stage) (outputs : List Value)
    (fexists : String → Bool) (retry : Nat) : Except String GateResult := do
  let stage_name := gateStageName stage
  let required := (List.lookup stage_name QUALITY_GATES).getD []
  let (checked, errs₁) ← gateScan outputs
  let errs₂ := (required.filter (fun req => !(checked.contains req))).map
    (fun req => "Missing required schema: " ++ req)
  let errs₃ ← evidenceFileErrors fexists outputs
  let errors := errs₁ ++ errs₂ ++ errs₃
  let valid := errors.isEmpty
  let action :=
    if valid then GateAction.proceed
    else if retry ≥ MAX_RETRY then GateAction.escalate
    else if errors.length > 10 then GateAction.stop
    else GateAction.revise
  pure { stage := stage_name, valid := valid, checked := checked,
         errors := errors, action := action, retry := retry }

/-- Log path of a controller gate evaluation, relative to the workflow's
base path (`quality_gate` writes `logs/gate_<stage>.json` with mode `"w"`). -/
def gate_log_key (stage : Stage) : String :=
  "logs/gate_" ++ (match stage with | .REVIEW_POST => "review" | s => s.lowerName) ++ ".json"

end WSM

namespace WSM

/-- In-memory state of `WorkflowMachine`.  `stage_outputs` keeps only the
`outputs` list of each recorded `StageOutput` (the other fields are never
read by the gate or the transitions); hooks, logging and directory
creation are side channels that are not modelled. -/
structure Machine where
  workflow_id : String
  base_path : String
  current_stage : Stage := .STARTUP
  completed_stages : List Stage := []
  stage_outputs : List (Stage × List Value) := []
  todos : List Value := []
  evidence : List Value := []
  start_time : String
  retry_counts : List (Stage × Nat) := []
  user_objective : String := ""

/-- The persisted state document written by `_save_state` (one JSON file,
replaced wholesale on every save). -/
structure StateDoc where
  workflow_id : String
  current_stage : String
  completed_stages : List String
  todos : List Value
  evidence : List Value
  start_time : String
  retry_counts : List (String × Nat)
  user_objective : String
  timestamp : String

/-- `WorkflowMachine._save_state` (the `timestamp` is the wall clock,
passed in as `now`). -/
def save_state (m : Machine) (now : String) : StateDoc :=
  { workflow_id := m.workflow_id,
    current_stage := m.current_stage.name,
    completed_stages := m.completed_stages.map Stage.name,
    todos := m.todos,
    evidence := m.evidence,
    start_time := m.start_time,
    retry_counts := m.retry_counts.map (fun p => (p.1.name, p.2)),
    user_objective := m.user_objective,
    timestamp := now }

/-- `WorkflowMachine._load_state` on a freshly constructed machine:
rehydrates the persisted fields; `none` models the caught exception path
(unknown stage name) in which loading fails. -/
def load_state (fresh : Machine) (doc : StateDoc) : Option Machine := do
  let cs ← stageOfName doc.current_stage
  let comp ← doc.completed_stages.mapM stageOfName
  let rc ← doc.retry_counts.mapM (fun p => do
    let s ← stageOfName p.1
    pure (s, p.2))
  pure { fresh with
    workflow_id := doc.workflow_id,
    current_stage := cs,
    completed_stages := comp,
    todos := doc.todos,
    evidence := doc.evidence,
    start_time := doc.start_time,
    retry_counts := rc,
    user_objective := doc.user_objective }

/-- Aggregate result of the startup sequence (the `startup_result` dict;
its `timestamp` is omitted). -/
structure StartupResult where
  mcp_verified : Bool
  scheduler_active : Bool
  memory_ok : Bool
  env_ready : Bool
  workflow_dir : String
deriving DecidableEq, Repr

/-- `WorkflowMachine.startup()`.  Modelled from the spec: the external
startup readiness checker (§6 `runChecks`) is out of scope of the source,
which stubs every per-server MCP ping to `True`; the ping outcome is
therefore passed in as the oracle `mcpPing`.  On an aggregate pass the
machine moves to `PLAN`; on any failing ping it returns early with the
stage unchanged. -/
def startup (m : Machine) (mcpPing : String → Bool) : StartupResult × Machine :=
  let mcp_verified := MCP_SERVERS.all mcpPing
  if !mcp_verified then
    ({ mcp_verified := false, scheduler_active := false, memory_ok := false,
       env_ready := false, workflow_dir := m.base_path }, m)
  else
    ({ mcp_verified := true, scheduler_active := true, memory_ok := true,
       env_ready := true, workflow_dir := m.base_path },
     { m with current_stage := .PLAN })

/-- The fixed stage order checked by `transition` (terminal stages are
absent from it). -/
def stage_order : List Stage :=
  [.STARTUP, .PLAN, .REVIEW, .DISRUPT, .IMPLEMENT, .TEST, .REVIEW_POST, .VALIDATE, .LEARN]

/-- `stage_order.index(s) if s in stage_order else -1`. -/
def orderIdx (s : Stage) : Int :=
  if stage_order.contains s then (stage_order.indexOf s : Int) else -1

/-- The bookkeeping of a successful transition: append the old stage to the
completed history and move to the target. -/
def performTransition (m : Machine) (to_stage : Stage) : Machine :=
  { m with completed_stages := m.completed_stages ++ [m.current_stage],
           current_stage := to_stage }

/-- `WorkflowMachine.transition(to_stage)`.  Returns `(success, machine)`;
the quality gate runs on the current stage unless it is `STARTUP`, and can
raise on malformed recorded outputs. -/
def transition (m : Machine) (to_stage : Stage) (fexists : String → Bool) :
    Except String (Bool × Machine) :=
  let current_idx := orderIdx m.current_stage
  let next_idx := orderIdx to_stage
  -- Can only move forward by 1 (except FAILED/COMPLETE)
  if (to_stage ≠ .FAILED ∧ to_stage ≠ .COMPLETE) ∧ next_idx ≠ current_idx + 1 then
    .ok (false, m)
  else if m.current_stage = .STARTUP then
    .ok (true, performTransition m to_stage)
  else do
    let outputs := (List.lookup m.current_stage m.stage_outputs).getD []
    let retry := (List.lookup m.current_stage m.retry_counts).getD 0
    let gate_result ← quality_gate m.current_stage outputs fexists retry
    match gate_result.action with
    | .proceed => .ok (true, performTransition m to_stage)
    | .revise =>
      .ok (false, { m with retry_counts := updateAssoc m.retry_counts m.current_stage (retry + 1) })
    | .escalate =>
      .ok (false, { m with retry_counts := updateAssoc m.retry_counts m.current_stage (retry + 1) })
    | .stop => .ok (false, { m with current_stage := .FAILED })

/-- `WorkflowMachine.create_todo(content, priority)` with all metadata
overrides left to their defaults.  Raises `ValueError` (modelled as
`.error`) when the built todo fails its own schema validation. -/
def create_todo (m : Machine) (content : String) (priority : String) :
    Except String (Value × Machine) :=
  let todo_id := natRepr (m.todos.length + 1) ++ ".1"
  let todo : Value := .obj [
    ("id", .str todo_id),
    ("content", .str content),
    ("status", .str "pending"),
    ("priority", .str priority),
    ("metadata", .obj [
      ("objective", .str content),
      ("success_criteria", .str "Task completed"),
      ("fail_criteria", .str "Task not completed"),
      ("evidence_required", .str "log"),
      ("evidence_location", .str (m.base_path ++ "/evidence/" ++ todo_id ++ ".log")),
      ("agent_model", .str "Claude"),
      ("workflow", .str "PLAN→REVIEW→DISRUPT→IMPLEMENT→TEST→REVIEW→VALIDATE→LEARN"),
      ("blocked_by", .list []),
      ("parallel", .bool false),
      ("workflow_stage", .str m.current_stage.name),
      ("instructions_set", .str "AGENTS_3.md"),
      ("time_budget", .str "≤60m"),
      ("reviewer", .str "gpt-5.2")])]
  do
    let (valid, errors) ← validate_schema todo "todo"
    if valid then .ok (todo, { m with todos := m.todos ++ [todo] })
    else .error ("ValueError: Invalid todo: " ++ pyRepr (.list (errors.map .str)))

end WSM

/-! ## `hooks/reprompt_timer.py` -/

namespace RT

/-- Log path of a scheduler-tick gate evaluation, relative to the workflow
directory: `RepromptTimer.check` writes
`logs/gate_<stage>_<check_count>.json`, where `check_count` is the timer's
monotonically increasing check counter (incremented at the start of every
`check()` call). -/
def timer_gate_log_key (stage : WSM.Stage) (check_count : Nat) : String :=
  "logs/gate_" ++ stage.lowerName ++ "_" ++ natRepr check_count ++ ".json"

end RT

/-- A store of persisted gate-result log entries, keyed by file path. -/
def LogStore := String → Option WSM.GateResult

/-- Writing a log file: a full replace of the entry at that path. -/
def writeLog (store : LogStore) (key : String) (r : WSM.GateResult) : LogStore :=
  fun k => if k = key then some r else store k

/-! ## `skills/workflow-enforcement/stage_gate_validator.py` -/

namespace SGV

/-- Schema definitions of the hook validator (a leaner table than the state
machine's: no `types` constraints, a looser evidence id pattern, and
shorter nested-required / enum lists for some schemas). -/
def SCHEMAS : List (String × WSM.Schema) := [
  ("todo", {
    required := ["id", "content", "status", "priority", "metadata"],
    metadata_required := [
      "objective", "success_criteria", "fail_criteria", "evidence_required",
      "evidence_location", "agent_model", "workflow", "blocked_by", "parallel",
      "workflow_stage", "instructions_set", "time_budget", "reviewer"],
    enums := [
      ("status", ["pending", "in_progress", "completed", "blocked", "failed"]),
      ("priority", ["high", "medium", "low"]),
      ("evidence_required", ["log", "output", "test_result", "diff", "screenshot", "api_response"]),
      ("workflow_stage", ["PLAN", "REVIEW", "DISRUPT", "IMPLEMENT", "TEST", "VALIDATE", "LEARN"]),
      ("agent_model", ["Claude", "GPT", "Ollama"])] }),
  ("evidence", {
    required := ["id", "type", "claim", "location", "timestamp", "verified", "verified_by"],
    patterns := [("id", .evidenceIdLoose)],
    enums := [
      ("type", ["log", "output", "test_result", "diff", "screenshot", "api_response"]),
      ("verified_by", ["agent", "third-party", "user"])] }),
  ("handoff", {
    required := ["from_agent", "to_agent", "timestamp", "context"],
    context_required := ["user_objective", "current_stage", "todos_remaining",
      "evidence_collected", "blockers"] }),
  ("review_gate", {
    required := ["stage", "agent", "timestamp", "criteria_checked", "approved", "action"],
    enums := [("action", ["proceed", "revise", "escalate"])] }),
  ("conflict", {
    required := ["id", "type", "parties", "positions"],
    enums := [("type", ["plan_disagreement", "evidence_dispute", "priority_conflict", "resource_conflict"])] }),
  ("metrics", {
    required := ["workflow_id", "timestamp", "total_time_min", "stages", "agents", "evidence", "quality"] }),
  ("skill", {
    required := ["name", "source", "purpose", "interface", "tested", "evidence_location"] }),
  ("startup", {
    required := ["mcp_verified", "scheduler_active", "memory_ok", "env_ready", "workflow_dir", "timestamp"] }),
  ("recovery", {
    required := ["id", "trigger", "rollback_to", "state_before", "state_after", "success", "resume_stage"] })]

/-- Same quality-gate table as the state machine's. -/
def QUALITY_GATES : List (String × List String) := [
  ("PLAN", ["todo", "evidence"]),
  ("REVIEW", ["review_gate", "evidence"]),
  ("DISRUPT", ["conflict", "evidence"]),
  ("IMPLEMENT", ["todo", "evidence"]),
  ("TEST", ["evidence", "metrics"]),
  ("VALIDATE", ["review_gate", "evidence"]),
  ("LEARN", ["skill", "metrics"])]

def MAX_RETRY : Nat := 3

/-- The nested-required loop of the hook's `validate_schema`: unlike the
state machine's, it only reports a nested field when the sub-object key is
itself present (`if nested in data and field not in data.get(nested, {})`). -/
def nestedRequiredErrors (data : Value) (nested : String) :
    List String → Except String (List String)
  | [] => .ok []
  | f :: fs => do
    let c₁ ← pyContains data nested
    let here ← if c₁ then do
        let nd ← pyGetD data nested (.obj [])
        let c₂ ← pyContains nd f
        pure (if c₂ then [] else ["Missing: " ++ nested ++ "." ++ f])
      else pure []
    let rest ← nestedRequiredErrors data nested fs
    pure (here ++ rest)

/-- The enum loop of the hook's `validate_schema` (shorter message than the
state machine's). -/
def enumErrors (data : Value) :
    List (String × List String) → Except String (List String)
  | [] => .ok []
  | (f, allowed) :: rest => do
    let val ← WSM.getWithMetaFallback data f
    let tail ← enumErrors data rest
    pure ((if pyTruthy val && !(allowed.any (fun a => val == .str a)) then
        [f ++ ": '" ++ pyStr val ++ "' invalid"]
      else []) ++ tail)

/-- The pattern loop of the hook's `validate_schema`: it passes `data[field]`
to `re.match` without a `str()` conversion, so a truthy non-string raises
`TypeError`. -/
def patternErrors (data : Value) :
    List (String × WSM.RegexPat) → Except String (List String)
  | [] => .ok []
  | (f, pat) :: rest => do
    let c ← pyContains data f
    let here ← if c then do
        let v ← pySubscript data f
        if pyTruthy v then
          match v with
          | .str s => pure (if pat.accepts s then [] else [f ++ ": pattern mismatch"])
          | _ => .error "TypeError: expected string or bytes-like object"
        else pure []
      else pure []
    let tail ← patternErrors data rest
    pure (here ++ tail)

/-- The hook's `validate_schema(data, schema_name)`. -/
def validate_schema (data : Value) (schema_name : String) :
    Except String (Bool × List String) :=
  match List.lookup schema_name SCHEMAS with
  | none => .ok (false, ["Unknown schema: " ++ schema_name])
  | some schema => do
    -- Unwrap nested
    let c ← pyContains data schema_name
    let data ← if c then do
        let inner ← pySubscript data schema_name
        pure (if isDict inner then inner else data)
      else pure data
    let errs₁ ← WSM.requiredErrors data schema.required
    let errs₂ ← nestedRequiredErrors data "metadata" schema.metadata_required
    let errs₃ ← nestedRequiredErrors data "context" schema.context_required
    let errs₄ ← enumErrors data schema.enums
    let errs₅ ← patternErrors data schema.patterns
    let errors := errs₁ ++ errs₂ ++ errs₃ ++ errs₄ ++ errs₅
    pure (errors.isEmpty, errors)

/-- The hook's `detect_schema` (same fixed-priority probe as the state
machine's). -/
def detect_schema (data : Value) : Except String (Option String) := do
  if (← pyContains data "evidence") then pure (some "evidence") else
  if (← pyContains data "handoff") then pure (some "handoff") else
  if (← pyContains data "review_gate") then pure (some "review_gate") else
  if (← pyContains data "conflict") then pure (some "conflict") else
  if (← pyContains data "metrics") then pure (some "metrics") else
  if (← pyContains data "skill") then pure (some "skill") else
  if (← pyContains data "startup") then pure (some "startup") else
  if (← pyContains data "recovery") then pure (some "recovery") else
  if (← pyContains data "metadata") then do
    let md ← pyGetD data "metadata" (.obj [])
    if (← pyContains md "objective") then pure (some "todo") else pure none
  else pure none

/-- Result dict of `validate_stage` (its `action` is a plain string and it
carries the process exit code). -/
structure StageResult where
  stage : String
  valid : Bool
  checked : List String
  errors : List String
  retry : Nat
  action : String
  exit_code : Nat
deriving Repr

/-- The per-output loop of `validate_stage`. -/
def stageScan : List Value → Except String (List String × List String)
  | [] => .ok ([], [])
  | out :: rest => do
    let s? ← detect_schema out
    let (c₁, e₁) ← match s? with
      | some s => do
        let (valid, errs) ← validate_schema out s
        pure ([s], if valid then [] else errs.map (fun e => "[" ++ s ++ "] " ++ e))
      | none => pure (([] : List String), ([] : List String))
    let (cs, es) ← stageScan rest
    pure (c₁ ++ cs, e₁ ++ es)

/-- `validate_stage(stage, outputs, retry_count)`.  Note its action ladder
has no STOP branch: an invalid result yields `escalate` (exit 2) once
retries are exhausted and `revise` (exit 1) otherwise, whatever the error
count. -/
def validate_stage (stage : String) (outputs : List Value) (retry_count : Nat) :
    Except String StageResult := do
  let required := (List.lookup stage QUALITY_GATES).getD []
  let (checked, errs₁) ← stageScan outputs
  let errs₂ := (required.filter (fun req => !(checked.contains req))).map
    (fun req => "Missing required: " ++ req)
  let errors := errs₁ ++ errs₂
  let valid := errors.isEmpty
  let action : String :=
    if valid then "proceed"
    else if retry_count ≥ MAX_RETRY then "escalate"
    else "revise"
  let exit_code : Nat :=
    if valid then 0
    else if retry_count ≥ MAX_RETRY then 2
    else 1
  pure { stage := stage, valid := valid, checked := checked, errors := errors,
         retry := retry_count, action := action, exit_code := exit_code }

end SGV

/-! ## Shared concrete inputs and proof-side predicates -/

/-- File-existence oracle for runs in which no evidence file is on disk. -/
def noFile : String → Bool := fun _ => false

/-- File-existence oracle for runs in which every probed path exists. -/
def allFiles : String → Bool := fun _ => true

/-- A concrete freshly constructed workflow machine. -/
def sampleMachine : WSM.Machine :=
  { workflow_id := "20260104_070000_abc123",
    base_path := ".workflow/20260104_070000_abc123",
    start_time := "2026-01-04T07:00:00+00:00" }

/-- A minimal record that `detect_schema` classifies as a todo (it has
`metadata.objective`) but that is missing every other required field. -/
def minimalTodoStub : Value :=
  .obj [("metadata", .obj [("objective", .str "x")])]

/-- Lookup-or-default used by the tameness predicates: the value stored at
`k`, if any, must satisfy `p`; an absent key is fine. -/
def valueAt (d : List (String × Value)) (k : String) (p : Value → Bool) : Bool :=
  match List.lookup k d with
  | some w => p w
  | none => true

/-- A record whose `metadata` and `context` members, when present, are
dicts — the shape under which every lookup the validator performs on those
sub-objects is defined. -/
def tameData (v : Value) : Bool :=
  match v with
  | .obj d => valueAt d "metadata" isDict && valueAt d "context" isDict
  | _ => false

/-- A record whose `location` member, when present and truthy, is a string
(so that `Path(location)` is well-typed). -/
def locOk (v : Value) : Bool :=
  match v with
  | .obj e => valueAt e "location" (fun w => !pyTruthy w || (match w with | .str _ => true | _ => false))
  | _ => false

/-- The schema names, which double as the wrapper keys the gate inspects. -/
def schemaKeys : List String :=
  ["evidence", "handoff", "review_gate", "conflict", "metrics", "skill",
   "startup", "recovery", "todo"]

/-- An inner (wrapped) record that is safe to validate: a dict with
dict-valued `metadata`/`context` and a string `location` when truthy. -/
def tameInner (v : Value) : Bool := tameData v && locOk v

/-- A gate output on which the evaluator cannot raise: a dict with
dict-valued `metadata`/`context`, whose value under any schema-wrapper key
is itself a tame inner record. -/
def tameRecord (v : Value) : Bool :=
  match v with
  | .obj d => tameData v && schemaKeys.all (fun k => valueAt d k tameInner)
  | _ => false

/-- Parse a decimal digit list, least-significant digit first (proof
helper, the left inverse of `natDigitsRev`). -/
def parseDigitsRev : List Char → Nat
  | [] => 0
  | c :: cs => (c.toNat - 48) + 10 * parseDigitsRev cs

/-- Proof helper: the sequence number embedded in a timer log key, read off
as the digit run just before the `.json` suffix. -/
def logKeySeq (k : String) : Nat :=
  parseDigitsRev ((k.data.reverse.drop 5).takeWhile Char.isDigit)

/-- The empty gate-result log store. -/
def emptyLog : LogStore := fun _ => none

/-! ## Helper lemmas -/

theorem stageOfName_name (s : WSM.Stage) : WSM.stageOfName s.name = some s := by
  cases s <;> rfl

theorem mapM_loop_stageOfName (l : List WSM.Stage) (acc : List WSM.Stage) :
    List.mapM.loop WSM.stageOfName (l.map WSM.Stage.name) acc = some (acc.reverse ++ l) := by
  induction l generalizing acc with
  | nil => simp [List.mapM.loop]
  | cons a l ih => simp [List.mapM.loop, stageOfName_name, ih]

theorem mapM_loop_retryNames (l : List (WSM.Stage × Nat)) (acc : List (WSM.Stage × Nat)) :
    List.mapM.loop (fun p => (WSM.stageOfName p.1).bind fun s => some (s, p.2))
      (l.map (fun p => (p.1.name, p.2))) acc = some (acc.reverse ++ l) := by
  induction l generalizing acc with
  | nil => simp [List.mapM.loop]
  | cons a l ih => simp [List.mapM.loop, stageOfName_name, ih]

/-! ## Claims -/

/-- Claim C1: for every stage, outputs list and `retryCount ≥ 3`
(`MAX_RETRY`), an invalid gate evaluation selects ESCALATE — never REVISE
or STOP — in both `WorkflowMachine.quality_gate` and the hook's
`validate_stage`: the retry-exhausted branch has priority over the
error-count branch. -/
theorem C1_retry_exhausted_escalates :
    (∀ (stage : WSM.Stage) (outputs : List Value) (fexists : String → Bool)
        (retry : Nat) (r : WSM.GateResult),
      WSM.MAX_RETRY ≤ retry →
      WSM.quality_gate stage outputs fexists retry = .ok r →
      r.valid = false →
      r.action = .escalate) ∧
    (∀ (stage : String) (outputs : List Value) (retry : Nat) (r : SGV.StageResult),
      SGV.MAX_RETRY ≤ retry →
      SGV.validate_stage stage outputs retry = .ok r →
      r.valid = false →
      r.action = "escalate") := by
  constructor
  · intro stage outputs fexists retry r hr hok hv
    rw [WSM.quality_gate] at hok
    cases h₁ : WSM.gateScan outputs with
    | error e => simp [h₁, bind, Except.bind] at hok
    | ok p =>
      obtain ⟨checked, errs₁⟩ := p
      cases h₃ : WSM.evidenceFileErrors fexists outputs with
      | error e => simp [h₁, h₃, bind, Except.bind] at hok
      | ok errs₃ =>
        simp only [h₁, h₃, bind, Except.bind, pure, Except.pure, Except.ok.injEq] at hok
        subst hok
        simp only at hv ⊢
        rw [hv]
        simp [hr]
  · intro stage outputs retry r hr hok hv
    rw [SGV.validate_stage] at hok
    cases h₁ : SGV.stageScan outputs with
    | error e => simp [h₁, bind, Except.bind] at hok
    | ok p =>
      obtain ⟨checked, errs₁⟩ := p
      simp only [h₁, bind, Except.bind, pure, Except.pure, Except.ok.injEq] at hok
      subst hok
      simp only at hv ⊢
      rw [hv]
      simp [hr]

/-- Witness for C1 at `evaluate(IMPLEMENT, [], retry=3)` (spec Scenario 3):
the empty outputs list is invalid (both required schemas missing) and the
action is ESCALATE in both implementations. -/
theorem C1_retry_exhausted_escalates_witness :
    (WSM.MAX_RETRY ≤ 3 ∧
      ∃ r, WSM.quality_gate .IMPLEMENT [] noFile 3 = .ok r ∧
        r.valid = false ∧ r.action = .escalate) ∧
    (SGV.MAX_RETRY ≤ 3 ∧
      ∃ r, SGV.validate_stage "IMPLEMENT" [] 3 = .ok r ∧
        r.valid = false ∧ r.action = "escalate") := by
  have h₁ : WSM.quality_gate .IMPLEMENT [] noFile 3 = .ok
      { stage := "IMPLEMENT", valid := false, checked := [],
        errors := ["Missing required schema: todo", "Missing required schema: evidence"],
        action := .escalate, retry := 3 } := rfl
  have h₂ : SGV.validate_stage "IMPLEMENT" [] 3 = .ok
      { stage := "IMPLEMENT", valid := false, checked := [],
        errors := ["Missing required: todo", "Missing required: evidence"],
        retry := 3, action := "escalate", exit_code := 2 } := rfl
  exact ⟨⟨by decide, _, h₁, rfl,
      C1_retry_exhausted_escalates.1 .IMPLEMENT [] noFile 3 _ (by decide) h₁ rfl⟩,
    ⟨by decide, _, h₂, rfl,
      C1_retry_exhausted_escalates.2 "IMPLEMENT" [] 3 _ (by decide) h₂ rfl⟩⟩

/-- Counterexample to claim C2: the hook's `validate_stage` has no STOP
branch.  A single stub todo yields 17 accumulated errors (> 10) at
`retry_count = 0 < 3`, yet the selected action is `revise` (exit code 1),
not STOP. -/
theorem C2_error_budget_counterexample :
    ∃ r, SGV.validate_stage "PLAN" [minimalTodoStub] 0 = .ok r ∧
      r.valid = false ∧ 10 < r.errors.length ∧ r.retry < SGV.MAX_RETRY ∧
      r.action = "revise" ∧ r.action ≠ "stop" := by
  refine ⟨_, rfl, ?_, ?_, ?_, ?_, ?_⟩ <;> decide

/-- Claim C2 as amended: with `retryCount < 3` and more than 10 errors,
`WorkflowMachine.quality_gate` selects STOP; the hook's `validate_stage`,
which has no STOP branch, selects REVISE (exit code 1) for every invalid
result with `retryCount < 3`, whatever the error count. -/
theorem C2_error_budget_amended :
    (∀ (stage : WSM.Stage) (outputs : List Value) (fexists : String → Bool)
        (retry : Nat) (r : WSM.GateResult),
      retry < WSM.MAX_RETRY →
      WSM.quality_gate stage outputs fexists retry = .ok r →
      10 < r.errors.length →
      r.action = .stop) ∧
    (∀ (stage : String) (outputs : List Value) (retry : Nat) (r : SGV.StageResult),
      retry < SGV.MAX_RETRY →
      SGV.validate_stage stage outputs retry = .ok r →
      r.valid = false →
      r.action = "revise" ∧ r.exit_code = 1) := by
  constructor
  · intro stage outputs fexists retry r hr hok hlen
    rw [WSM.quality_gate] at hok
    cases h₁ : WSM.gateScan outputs with
    | error e => simp [h₁, bind, Except.bind] at hok
    | ok p =>
      obtain ⟨checked, errs₁⟩ := p
      cases h₃ : WSM.evidenceFileErrors fexists outputs with
      | error e => simp [h₁, h₃, bind, Except.bind] at hok
      | ok errs₃ =>
        simp only [h₁, h₃, bind, Except.bind, pure, Except.pure, Except.ok.injEq] at hok
        subst hok
        simp only at hlen ⊢
        have hne : ¬ ((errs₁ ++
            (List.filter (fun req => !checked.contains req)
              ((List.lookup (WSM.gateStageName stage) WSM.QUALITY_GATES).getD [])).map
              (fun req => "Missing required schema: " ++ req) ++ errs₃).isEmpty = true) := by
          intro h
          rw [List.isEmpty_iff] at h
          rw [h] at hlen
          simp at hlen
        rw [if_neg hne, if_neg (by omega), if_pos hlen]
  · intro stage outputs retry r hr hok hv
    rw [SGV.validate_stage] at hok
    cases h₁ : SGV.stageScan outputs with
    | error e => simp [h₁, bind, Except.bind] at hok
    | ok p =>
      obtain ⟨checked, errs₁⟩ := p
      simp only [h₁, bind, Except.bind, pure, Except.pure, Except.ok.injEq] at hok
      subst hok
      simp only at hv ⊢
      rw [hv]
      simp
      omega

/-- Witness for the amended C2 at `stage = PLAN`, a single stub todo and
`retry = 0`: 17 errors accumulate, the state machine's gate selects STOP
while the hook validator selects REVISE with exit code 1. -/
theorem C2_error_budget_amended_witness :
    ((0 : Nat) < WSM.MAX_RETRY ∧
      ∃ r, WSM.quality_gate .PLAN [minimalTodoStub] noFile 0 = .ok r ∧
        10 < r.errors.length ∧ r.action = .stop) ∧
    ((0 : Nat) < SGV.MAX_RETRY ∧
      ∃ r, SGV.validate_stage "PLAN" [minimalTodoStub] 0 = .ok r ∧
        r.valid = false ∧ r.action = "revise" ∧ r.exit_code = 1) := by
  have h₁ : WSM.quality_gate .PLAN [minimalTodoStub] noFile 0 = .ok
      { stage := "PLAN", valid := false, checked := ["todo"],
        errors := ["[todo] Missing: id", "[todo] Missing: content",
          "[todo] Missing: status", "[todo] Missing: priority",
          "[todo] Missing: metadata.success_criteria", "[todo] Missing: metadata.fail_criteria",
          "[todo] Missing: metadata.evidence_required", "[todo] Missing: metadata.evidence_location",
          "[todo] Missing: metadata.agent_model", "[todo] Missing: metadata.workflow",
          "[todo] Missing: metadata.blocked_by", "[todo] Missing: metadata.parallel",
          "[todo] Missing: metadata.workflow_stage", "[todo] Missing: metadata.instructions_set",
          "[todo] Missing: metadata.time_budget", "[todo] Missing: metadata.reviewer",
          "Missing required schema: evidence"],
        action := .stop, retry := 0 } := rfl
  have h₂ : SGV.validate_stage "PLAN" [minimalTodoStub] 0 = .ok
      { stage := "PLAN", valid := false, checked := ["todo"],
        errors := ["[todo] Missing: id", "[todo] Missing: content",
          "[todo] Missing: status", "[todo] Missing: priority",
          "[todo] Missing: metadata.success_criteria", "[todo] Missing: metadata.fail_criteria",
          "[todo] Missing: metadata.evidence_required", "[todo] Missing: metadata.evidence_location",
          "[todo] Missing: metadata.agent_model", "[todo] Missing: metadata.workflow",
          "[todo] Missing: metadata.blocked_by", "[todo] Missing: metadata.parallel",
          "[todo] Missing: metadata.workflow_stage", "[todo] Missing: metadata.instructions_set",
          "[todo] Missing: metadata.time_budget", "[todo] Missing: metadata.reviewer",
          "Missing required: evidence"],
        retry := 0, action := "revise", exit_code := 1 } := rfl
  refine ⟨⟨by decide, _, h₁, by decide,
      C2_error_budget_amended.1 .PLAN [minimalTodoStub] noFile 0 _ (by decide) h₁ (by decide)⟩,
    ⟨by decide, _, h₂, rfl, ?_⟩⟩
  exact C2_error_budget_amended.2 "PLAN" [minimalTodoStub] 0 _ (by decide) h₂ rfl

/-- Claim C3: from every non-terminal current stage, a requested transition
to any target other than Failed and Complete whose order index is not the
immediate successor (earlier stages, the same stage, or skips forward)
returns failure and leaves the machine — in particular its current stage —
completely unchanged. -/
theorem C3_stage_order_invariant (m : WSM.Machine) (to_stage : WSM.Stage)
    (fexists : String → Bool)
    (_hcur : m.current_stage ≠ .COMPLETE ∧ m.current_stage ≠ .FAILED)
    (hto : to_stage ≠ .COMPLETE ∧ to_stage ≠ .FAILED)
    (hidx : WSM.orderIdx to_stage ≠ WSM.orderIdx m.current_stage + 1) :
    WSM.transition m to_stage fexists = .ok (false, m) := by
  rw [WSM.transition, if_pos ⟨⟨hto.2, hto.1⟩, hidx⟩]

/-- Witness for C3: from PLAN (order index 1), the skip to IMPLEMENT
(order index 4) is rejected with the machine unchanged. -/
theorem C3_stage_order_invariant_witness :
    WSM.transition { sampleMachine with current_stage := .PLAN } .IMPLEMENT noFile =
      .ok (false, { sampleMachine with current_stage := .PLAN }) :=
  C3_stage_order_invariant _ _ _ ⟨by decide, by decide⟩ ⟨by decide, by decide⟩ (by decide)

/-- Claim C4 asserts that a workflow in Complete or Failed admits no
further stage change; the code violates it.  Because a terminal stage is
absent from `stage_order`, `current_idx` is the sentinel `-1`, so a
requested transition to STARTUP (index 0 = -1 + 1) passes the order check,
the quality gate for the terminal stage trivially passes with no recorded
outputs, and the transition succeeds; Failed → Complete is likewise
accepted since Complete is always a permitted target.  This theorem
evaluates the code at those failing inputs. -/
theorem C4_terminal_stage_accepts_transition :
    (∃ m', WSM.transition { sampleMachine with current_stage := .COMPLETE } .STARTUP noFile =
        .ok (true, m') ∧ m'.current_stage = .STARTUP) ∧
    (∃ m', WSM.transition { sampleMachine with current_stage := .FAILED } .COMPLETE noFile =
        .ok (true, m') ∧ m'.current_stage = .COMPLETE) :=
  ⟨⟨_, rfl, rfl⟩, ⟨_, rfl, rfl⟩⟩

/-- Counterexample to claim C5: with every readiness check failing (the
all-fail ping oracle), the aggregate is a fail — yet a requested
`transition(PLAN)` from Startup still succeeds and moves the stage to
PLAN, because `transition` skips the quality gate for STARTUP and never
consults the readiness check. -/
theorem C5_startup_readiness_counterexample :
    (WSM.startup sampleMachine noFile).1.mcp_verified = false ∧
    (WSM.startup sampleMachine noFile).2.current_stage = .STARTUP ∧
    ∃ m', WSM.transition sampleMachine .PLAN noFile = .ok (true, m') ∧
      m'.current_stage = .PLAN :=
  ⟨rfl, rfl, _, rfl, rfl⟩

/-- Claim C5 as amended: the readiness aggregate gates only the `startup()`
sequence — `startup()` moves the stage to PLAN iff every readiness check
passes and leaves the machine untouched otherwise — while a requested
`transition(PLAN)` from Startup always succeeds, without consulting
readiness. -/
theorem C5_startup_readiness_amended (m : WSM.Machine)
    (mcpPing fexists : String → Bool)
    (hcur : m.current_stage = .STARTUP) :
    ((WSM.startup m mcpPing).2.current_stage = .PLAN ↔ WSM.MCP_SERVERS.all mcpPing = true) ∧
    (WSM.MCP_SERVERS.all mcpPing = false → (WSM.startup m mcpPing).2 = m) ∧
    (∃ m', WSM.transition m .PLAN fexists = .ok (true, m') ∧ m'.current_stage = .PLAN) := by
  refine ⟨?_, ?_, ?_⟩
  · cases hall : WSM.MCP_SERVERS.all mcpPing <;>
      simp [WSM.startup, hall, hcur]
  · intro hall
    simp [WSM.startup, hall]
  · refine ⟨WSM.performTransition m .PLAN, ?_, rfl⟩
    rw [WSM.transition]
    rw [if_neg (by rw [hcur]; decide), if_pos hcur]

/-- Witness for the amended C5 on a fresh machine: with the all-pass ping
oracle `startup` reaches PLAN, and `transition(PLAN)` from Startup
succeeds. -/
theorem C5_startup_readiness_amended_witness :
    sampleMachine.current_stage = .STARTUP ∧
    (((WSM.startup sampleMachine allFiles).2.current_stage = .PLAN ↔
        WSM.MCP_SERVERS.all allFiles = true) ∧
      (WSM.MCP_SERVERS.all allFiles = false → (WSM.startup sampleMachine allFiles).2 = sampleMachine) ∧
      (∃ m', WSM.transition sampleMachine .PLAN noFile = .ok (true, m') ∧
        m'.current_stage = .PLAN)) :=
  ⟨rfl, C5_startup_readiness_amended sampleMachine allFiles noFile rfl⟩

/-- Claim C6: saving any reachable state and loading it into a freshly
constructed controller over the same store reproduces the current stage,
completed-stage list, todo list, evidence list and per-stage retry-count
map exactly. -/
theorem C6_save_load_round_trip (m fresh : WSM.Machine) (now : String) :
    ∃ m', WSM.load_state fresh (WSM.save_state m now) = some m' ∧
      m'.current_stage = m.current_stage ∧
      m'.completed_stages = m.completed_stages ∧
      m'.todos = m.todos ∧
      m'.evidence = m.evidence ∧
      m'.retry_counts = m.retry_counts := by
  refine ⟨{ fresh with
      workflow_id := m.workflow_id,
      current_stage := m.current_stage,
      completed_stages := m.completed_stages,
      todos := m.todos,
      evidence := m.evidence,
      start_time := m.start_time,
      retry_counts := m.retry_counts,
      user_objective := m.user_objective }, ?_, rfl, rfl, rfl, rfl, rfl⟩
  simp [WSM.load_state, WSM.save_state, List.mapM, stageOfName_name,
    mapM_loop_stageOfName, mapM_loop_retryNames]
theorem digitChar_isDigit {d : Nat} (h : d < 10) : (digitChar d).isDigit = true := by
  interval_cases d <;> decide

theorem digitChar_toNat {d : Nat} (h : d < 10) : (digitChar d).toNat = 48 + d := by
  interval_cases d <;> decide

theorem natDigitsRevAux_spec {f : Nat} : ∀ {n : Nat}, n < f →
    (∀ c ∈ natDigitsRevAux f n, c.isDigit = true) ∧
      parseDigitsRev (natDigitsRevAux f n) = n := by
  induction f with
  | zero => intro n h; omega
  | succ f ih =>
    intro n h
    rw [natDigitsRevAux]
    by_cases h10 : n < 10
    · rw [if_pos h10]
      refine ⟨?_, ?_⟩
      · intro c hc
        simp at hc
        subst hc
        exact digitChar_isDigit h10
      · simp [parseDigitsRev, digitChar_toNat h10]
    · rw [if_neg h10]
      have hlt : n / 10 < f := by
        have := Nat.div_lt_self (by omega : 0 < n) (by omega : 1 < 10)
        omega
      obtain ⟨hd, hp⟩ := ih hlt
      refine ⟨?_, ?_⟩
      · intro c hc
        simp at hc
        rcases hc with hc | hc
        · subst hc; exact digitChar_isDigit (by omega)
        · exact hd c hc
      · simp [parseDigitsRev, hp, digitChar_toNat (show n % 10 < 10 by omega)]
        omega

theorem natDigitsRev_isDigit (n : Nat) : ∀ c ∈ natDigitsRev n, c.isDigit = true :=
  (natDigitsRevAux_spec (Nat.lt_succ_self n)).1

theorem parseDigitsRev_natDigitsRev (n : Nat) : parseDigitsRev (natDigitsRev n) = n :=
  (natDigitsRevAux_spec (Nat.lt_succ_self n)).2

theorem takeWhile_digits_append (ds rest : List Char)
    (hd : ∀ c ∈ ds, c.isDigit = true) :
    ((ds ++ '_' :: rest).takeWhile Char.isDigit) = ds := by
  induction ds with
  | nil => simp [List.takeWhile]
  | cons c cs ih =>
    simp only [List.cons_append, List.takeWhile]
    rw [hd c (by simp)]
    simp only [List.cons.injEq, true_and]
    exact ih (fun c hc => hd c (by simp [hc]))

theorem logKeySeq_timer_key (s : WSM.Stage) (n : Nat) :
    logKeySeq (RT.timer_gate_log_key s n) = n := by
  have h1 : ("logs/gate_" ++ s.lowerName ++ "_" ++ natRepr n ++ ".json").data
      = (("logs/gate_".data ++ s.lowerName.data ++ ['_']) ++ (natDigitsRev n).reverse)
        ++ ['.', 'j', 's', 'o', 'n'] := by
    show (((("logs/gate_".data ++ s.lowerName.data) ++ ['_']) ++ (natDigitsRev n).reverse)
        ++ ['.', 'j', 's', 'o', 'n']) = _
    simp [List.append_assoc]
  simp only [logKeySeq, RT.timer_gate_log_key, h1]
  rw [List.reverse_append, List.reverse_append]
  simp only [List.reverse_cons, List.reverse_nil, List.nil_append, List.cons_append,
    List.append_assoc, List.reverse_reverse]
  simp only [List.drop_succ_cons, List.drop_zero]
  simp only [List.reverse_append, List.reverse_cons, List.reverse_nil, List.nil_append,
    List.cons_append, List.append_assoc]
  rw [takeWhile_digits_append _ _ (natDigitsRev_isDigit n)]
  exact parseDigitsRev_natDigitsRev n

/-- Counterexample to claim C8: a controller-triggered gate evaluation is
persisted under `logs/gate_<stage>.json` — a key formed from the stage
alone, with no sequence number.  Two distinct evaluations of the PLAN gate
(at retry 0 and retry 1) produce distinct results but the same key, and
after both writes the first record is nowhere in the store: it has been
overwritten. -/
theorem C8_gate_log_overwrite_counterexample :
    ∃ r₀ r₁, WSM.quality_gate .PLAN [] noFile 0 = .ok r₀ ∧
      WSM.quality_gate .PLAN [] noFile 1 = .ok r₁ ∧
      r₀ ≠ r₁ ∧
      ∀ k, writeLog (writeLog emptyLog (WSM.gate_log_key .PLAN) r₀)
          (WSM.gate_log_key .PLAN) r₁ k ≠ some r₀ := by
  refine ⟨⟨"PLAN", false, [],
      ["Missing required schema: todo", "Missing required schema: evidence"], .revise, 0⟩,
    ⟨"PLAN", false, [],
      ["Missing required schema: todo", "Missing required schema: evidence"], .revise, 1⟩,
    rfl, rfl, by decide, ?_⟩
  intro k
  by_cases hk : k = WSM.gate_log_key .PLAN
  · subst hk
    simp only [writeLog, if_pos rfl]
    decide
  · simp [writeLog, hk, emptyLog]

/-- Claim C8 as amended: scheduler ticks persist their results under
distinct keys formed from the stage and the timer's check count, so no two
ticks of one timer (whose counter increases on every check) can overwrite
each other; a controller-triggered evaluation, however, is persisted under
a key formed from the stage alone, and a later write to a stage's key
replaces whatever record was stored there. -/
theorem C8_log_keys_amended :
    (∀ (s₁ s₂ : WSM.Stage) (n₁ n₂ : Nat), n₁ ≠ n₂ →
      RT.timer_gate_log_key s₁ n₁ ≠ RT.timer_gate_log_key s₂ n₂) ∧
    (∀ (store : LogStore) (s : WSM.Stage) (r : WSM.GateResult),
      writeLog store (WSM.gate_log_key s) r (WSM.gate_log_key s) = some r) := by
  constructor
  · intro s₁ s₂ n₁ n₂ hne he
    apply hne
    have h := congrArg logKeySeq he
    rwa [logKeySeq_timer_key, logKeySeq_timer_key] at h
  · intro store s r
    simp [writeLog]

/-- Witness for the amended C8: the first two checks of a timer sitting at
PLAN use different log keys, and a controller write to the PLAN key is the
record subsequently stored there. -/
theorem C8_log_keys_amended_witness :
    ((1 : Nat) ≠ 2 ∧ RT.timer_gate_log_key .PLAN 1 ≠ RT.timer_gate_log_key .PLAN 2) ∧
    writeLog emptyLog (WSM.gate_log_key .PLAN)
      { stage := "PLAN", valid := true, checked := [], errors := [],
        action := .proceed, retry := 0 }
      (WSM.gate_log_key .PLAN) = some
      { stage := "PLAN", valid := true, checked := [], errors := [],
        action := .proceed, retry := 0 } :=
  ⟨⟨by decide, C8_log_keys_amended.1 .PLAN .PLAN 1 2 (by decide)⟩,
   C8_log_keys_amended.2 emptyLog .PLAN _⟩

theorem beqValue_def (a b : Value) : (a == b) = Value.beq a b := rfl

theorem append_dot1_beq_empty (x : String) : ((x ++ ".1") == "") = false := by
  rw [beq_eq_false_iff_ne]
  intro h
  have hd : (x ++ ".1").data = "".data := congrArg String.data h
  simp [String.data] at hd

/-- Validation of the exact record shape `create_todo` builds: with a
non-empty id and content, a priority and a workflow-stage name from their
allowed sets, and the remaining fields at their built-in defaults, the
todo schema accepts it with no errors. -/
theorem validate_schema_todo_built (idv content priority sn loc : String)
    (hid : (idv == "") = false) (hc : (content == "") = false)
    (hp : priority = "high" ∨ priority = "medium" ∨ priority = "low")
    (hsn : sn = "PLAN" ∨ sn = "REVIEW" ∨ sn = "DISRUPT" ∨ sn = "IMPLEMENT" ∨
      sn = "TEST" ∨ sn = "VALIDATE" ∨ sn = "LEARN") :
    WSM.validate_schema (.obj [
      ("id", .str idv), ("content", .str content), ("status", .str "pending"),
      ("priority", .str priority),
      ("metadata", .obj [
        ("objective", .str content),
        ("success_criteria", .str "Task completed"),
        ("fail_criteria", .str "Task not completed"),
        ("evidence_required", .str "log"),
        ("evidence_location", .str loc),
        ("agent_model", .str "Claude"),
        ("workflow", .str "PLAN→REVIEW→DISRUPT→IMPLEMENT→TEST→REVIEW→VALIDATE→LEARN"),
        ("blocked_by", .list []),
        ("parallel", .bool false),
        ("workflow_stage", .str sn),
        ("instructions_set", .str "AGENTS_3.md"),
        ("time_budget", .str "≤60m"),
        ("reviewer", .str "gpt-5.2")])]) "todo" = .ok (true, []) := by
  rcases hp with rfl | rfl | rfl <;>
    rcases hsn with rfl | rfl | rfl | rfl | rfl | rfl | rfl <;>
    simp [WSM.validate_schema, WSM.SCHEMAS, WSM.requiredErrors, WSM.nestedRequiredErrors,
      WSM.enumErrors, WSM.patternErrors, WSM.typeErrors, WSM.getWithMetaFallback,
      pyContains, pySubscript, pyGetD, pyTruthy, isDict, pyIsInstance, beqValue_def, Value.beq,
      bind, Except.bind, pure, Except.pure, hid, hc, strContains, List.lookup, List.any, List.all]

/-- Counterexample to claim C9: `create_todo` does not succeed for every
controller state — at Startup or ReviewPost the built todo's
`workflow_stage` (`"STARTUP"` / `"REVIEW_POST"`) fails the schema's enum
check and the factory raises `ValueError`; it also raises for an empty
content, which the required-field check reports as missing. -/
theorem C9_create_todo_counterexample :
    (∃ e, WSM.create_todo { sampleMachine with current_stage := .STARTUP }
      "Test task" "high" = .error e) ∧
    (∃ e, WSM.create_todo { sampleMachine with current_stage := .REVIEW_POST }
      "Test task" "high" = .error e) ∧
    (∃ e, WSM.create_todo { sampleMachine with current_stage := .PLAN }
      "" "high" = .error e) :=
  ⟨⟨_, rfl⟩, ⟨_, rfl⟩, ⟨_, rfl⟩⟩

/-- Claim C9 as amended: for every controller state whose current stage is
one of the seven workflow stages (Plan, Review, Disrupt, Implement, Test,
Validate, Learn), every non-empty content string and every valid priority,
`create_todo` with defaulted metadata overrides succeeds without raising:
it returns a todo of 4 scalar top-level fields plus a 13-field metadata
object (17 data fields, 5 top-level entries in all) that passes the todo
schema, and appends it to the workflow's todo list. -/
theorem C9_create_todo_amended (m : WSM.Machine) (content priority : String)
    (hstage : m.current_stage ∈
      ([.PLAN, .REVIEW, .DISRUPT, .IMPLEMENT, .TEST, .VALIDATE, .LEARN] : List WSM.Stage))
    (hcontent : content ≠ "")
    (hpriority : priority ∈ (["high", "medium", "low"] : List String)) :
    ∃ t m', WSM.create_todo m content priority = .ok (t, m') ∧
      WSM.validate_schema t "todo" = .ok (true, []) ∧
      m'.todos = m.todos ++ [t] ∧
      ∃ d md, t = .obj d ∧ d.length = 5 ∧
        List.lookup "metadata" d = some (.obj md) ∧ md.length = 13 := by
  have hc : (content == "") = false := beq_eq_false_iff_ne.mpr hcontent
  have hp : priority = "high" ∨ priority = "medium" ∨ priority = "low" := by
    simpa using hpriority
  have hsn : m.current_stage.name = "PLAN" ∨ m.current_stage.name = "REVIEW" ∨
      m.current_stage.name = "DISRUPT" ∨ m.current_stage.name = "IMPLEMENT" ∨
      m.current_stage.name = "TEST" ∨ m.current_stage.name = "VALIDATE" ∨
      m.current_stage.name = "LEARN" := by
    simp only [List.mem_cons, List.not_mem_nil, or_false] at hstage
    rcases hstage with h | h | h | h | h | h | h <;> rw [h] <;> decide
  have hval := validate_schema_todo_built (natRepr (m.todos.length + 1) ++ ".1")
    content priority m.current_stage.name
    (m.base_path ++ "/evidence/" ++ (natRepr (m.todos.length + 1) ++ ".1") ++ ".log")
    (append_dot1_beq_empty _) hc hp hsn
  cases hok : WSM.create_todo m content priority with
  | error e =>
    exfalso
    rw [WSM.create_todo] at hok
    simp only [hval, bind, Except.bind] at hok
    rw [if_pos trivial] at hok
    exact Except.noConfusion hok
  | ok p =>
    obtain ⟨t, m'⟩ := p
    have hok₂ := hok
    rw [WSM.create_todo] at hok₂
    simp only [hval, bind, Except.bind] at hok₂
    rw [if_pos trivial] at hok₂
    injection hok₂ with hpair
    injection hpair with h₁ h₂
    subst h₁
    subst h₂
    refine ⟨_, _, rfl, ?_, ?_, ?_⟩
    · exact hval
    · rfl
    · exact ⟨_, _, rfl, rfl, rfl, rfl⟩

/-- Witness for the amended C9 on a fresh machine at PLAN with content
`"Test task"` and priority `"high"`. -/
theorem C9_create_todo_amended_witness :
    (({ sampleMachine with current_stage := .PLAN } : WSM.Machine).current_stage ∈
      ([.PLAN, .REVIEW, .DISRUPT, .IMPLEMENT, .TEST, .VALIDATE, .LEARN] : List WSM.Stage)) ∧
    ("Test task" ≠ "") ∧
    ("high" ∈ (["high", "medium", "low"] : List String)) ∧
    (∃ t m', WSM.create_todo { sampleMachine with current_stage := .PLAN }
        "Test task" "high" = .ok (t, m') ∧
      WSM.validate_schema t "todo" = .ok (true, []) ∧
      m'.todos = ({ sampleMachine with current_stage := .PLAN } : WSM.Machine).todos ++ [t] ∧
      ∃ d md, t = .obj d ∧ d.length = 5 ∧
        List.lookup "metadata" d = some (.obj md) ∧ md.length = 13) :=
  ⟨List.mem_cons_self _ _, by decide, List.mem_cons_self _ _,
    C9_create_todo_amended { sampleMachine with current_stage := .PLAN }
      "Test task" "high" (List.mem_cons_self _ _) (by decide) (List.mem_cons_self _ _)⟩

/-- Claim C10: in schema validation, for every record and every
enum-constrained field, when the field's top-level value is falsy the value
used for the enum check is taken from the record's `metadata` sub-object
instead; a falsy effective value is never reported as an enum violation,
and an error is produced exactly for a truthy effective value outside the
allowed set.  (Stated for records whose `metadata` member, when present,
is itself a record — otherwise the fallback lookup raises.) -/
theorem C10_enum_metadata_fallback (d : List (String × Value)) (f : String)
    (allowed : List String)
    (hmd : List.lookup "metadata" d = none ∨ ∃ md, List.lookup "metadata" d = some (.obj md)) :
    ∃ v es, WSM.getWithMetaFallback (.obj d) f = .ok v ∧
      WSM.enumErrors (.obj d) [(f, allowed)] = .ok es ∧
      (pyTruthy ((List.lookup f d).getD .null) = false →
        v = (match List.lookup "metadata" d with
             | some (Value.obj md) => (List.lookup f md).getD .null
             | _ => .null)) ∧
      (pyTruthy v = false → es = []) ∧
      (es ≠ [] ↔ pyTruthy v = true ∧ (allowed.any (fun a => v == Value.str a)) = false) := by
  have hget : ∃ v, WSM.getWithMetaFallback (.obj d) f = .ok v ∧
      (pyTruthy ((List.lookup f d).getD .null) = false →
        v = (match List.lookup "metadata" d with
             | some (Value.obj md) => (List.lookup f md).getD .null
             | _ => .null)) := by
    cases htop : pyTruthy ((List.lookup f d).getD .null) with
    | true =>
      refine ⟨(List.lookup f d).getD .null, ?_, fun h => by simp [htop] at h⟩
      simp [WSM.getWithMetaFallback, pyGetD, bind, Except.bind, pure, Except.pure, htop]
    | false =>
      rcases hmd with hmd | ⟨md, hmd⟩
      · refine ⟨.null, ?_, fun _ => by rw [hmd]⟩
        simp [WSM.getWithMetaFallback, pyGetD, bind, Except.bind, pure, Except.pure, htop, hmd]
      · refine ⟨(List.lookup f md).getD .null, ?_, fun _ => by rw [hmd]⟩
        simp [WSM.getWithMetaFallback, pyGetD, bind, Except.bind, pure, Except.pure, htop, hmd]
  obtain ⟨v, hv, hfb⟩ := hget
  refine ⟨v, (if (pyTruthy v && !(allowed.any (fun a => v == Value.str a))) then
      [f ++ ": '" ++ pyStr v ++ "' not in " ++ pyRepr (.list (allowed.map .str))] else []),
    hv, ?_, hfb, ?_, ?_⟩
  · simp [WSM.enumErrors, hv, bind, Except.bind, pure, Except.pure]
  · intro hfv
    simp [hfv]
  · cases hvt : pyTruthy v <;> cases ha : allowed.any (fun a => v == Value.str a) <;>
      simp [hvt, ha]

/-- Witness for C10 on a record whose top-level `priority` is the falsy
`""` while `metadata.priority` is `"high"`: the metadata value is the one
the enum check uses, and no error is produced. -/
theorem C10_enum_metadata_fallback_witness :
    (List.lookup "metadata"
        [("priority", Value.str ""), ("metadata", Value.obj [("priority", Value.str "high")])] = none ∨
      ∃ md, List.lookup "metadata"
        [("priority", Value.str ""), ("metadata", Value.obj [("priority", Value.str "high")])] =
          some (.obj md)) ∧
    (∃ v es, WSM.getWithMetaFallback
        (.obj [("priority", Value.str ""), ("metadata", Value.obj [("priority", Value.str "high")])])
        "priority" = .ok v ∧
      WSM.enumErrors
        (.obj [("priority", Value.str ""), ("metadata", Value.obj [("priority", Value.str "high")])])
        [("priority", ["high", "medium", "low"])] = .ok es ∧
      (pyTruthy ((List.lookup "priority"
          [("priority", Value.str ""), ("metadata", Value.obj [("priority", Value.str "high")])]).getD .null) = false →
        v = (match List.lookup "metadata"
            [("priority", Value.str ""), ("metadata", Value.obj [("priority", Value.str "high")])] with
           | some (Value.obj md) => (List.lookup "priority" md).getD .null
           | _ => .null)) ∧
      (pyTruthy v = false → es = []) ∧
      (es ≠ [] ↔ pyTruthy v = true ∧
        ((["high", "medium", "low"] : List String).any (fun a => v == Value.str a)) = false)) :=
  ⟨Or.inr ⟨_, rfl⟩,
    C10_enum_metadata_fallback
      [("priority", Value.str ""), ("metadata", Value.obj [("priority", Value.str "high")])]
      "priority" ["high", "medium", "low"] (Or.inr ⟨_, rfl⟩)⟩
theorem exists_ok_of_isOk {α β : Type} {e : Except α β} (h : e.isOk = true) :
    ∃ x, e = .ok x := by
  cases e with
  | error a => simp [Except.isOk, Except.toBool] at h
  | ok x => exact ⟨x, rfl⟩

theorem lookup_of_any {d : List (String × Value)} {f : String}
    (h : d.any (fun p => p.1 == f) = true) : ∃ w, List.lookup f d = some w := by
  induction d with
  | nil => simp at h
  | cons p d ih =>
    obtain ⟨k, v⟩ := p
    simp only [List.any_cons, Bool.or_eq_true] at h
    rcases h with h | h
    · have hk : k = f := eq_of_beq h
      subst hk
      exact ⟨v, by simp [List.lookup]⟩
    · obtain ⟨w, hw⟩ := ih h
      by_cases hfk : f = k
      · subst hfk
        exact ⟨v, by simp [List.lookup]⟩
      · refine ⟨w, ?_⟩
        simpa [List.lookup, beq_eq_false_iff_ne.mpr hfk] using hw

theorem requiredErrors_ok (d : List (String × Value)) (fs : List String) :
    ∃ es, WSM.requiredErrors (.obj d) fs = .ok es := by
  induction fs with
  | nil => exact ⟨[], rfl⟩
  | cons f fs ih =>
    obtain ⟨es, hes⟩ := ih
    rw [WSM.requiredErrors]
    cases hc : d.any (fun p => p.1 == f) with
    | false =>
      refine exists_ok_of_isOk ?_
      simp [pyContains, hc, hes, bind, Except.bind, pure, Except.pure, Except.isOk, Except.toBool]
    | true =>
      obtain ⟨w, hw⟩ := lookup_of_any hc
      refine exists_ok_of_isOk ?_
      simp [pyContains, pySubscript, hc, hw, hes, bind, Except.bind, pure, Except.pure, Except.isOk, Except.toBool]

theorem objDefault_of_valueAt {d : List (String × Value)} {k : String}
    (h : valueAt d k isDict = true) :
    ∃ e, (List.lookup k d).getD (Value.obj []) = .obj e := by
  rw [valueAt] at h
  cases hk : List.lookup k d with
  | none => exact ⟨[], by simp [hk]⟩
  | some w =>
    rw [hk] at h
    cases w <;> simp_all [isDict]

theorem nestedRequiredErrors_ok (d : List (String × Value)) (nested : String)
    (fs : List String) (h : valueAt d nested isDict = true) :
    ∃ es, WSM.nestedRequiredErrors (.obj d) nested fs = .ok es := by
  obtain ⟨e, he⟩ := objDefault_of_valueAt h
  induction fs with
  | nil => exact ⟨[], rfl⟩
  | cons f fs ih =>
    obtain ⟨es, hes⟩ := ih
    refine exists_ok_of_isOk ?_
    rw [WSM.nestedRequiredErrors]
    simp [pyGetD, he, pyContains, hes, bind, Except.bind, pure, Except.pure, Except.isOk, Except.toBool]

theorem getWithMetaFallback_ok (d : List (String × Value)) (f : String)
    (h : valueAt d "metadata" isDict = true) :
    ∃ v, WSM.getWithMetaFallback (.obj d) f = .ok v := by
  obtain ⟨e, he⟩ := objDefault_of_valueAt h
  rw [WSM.getWithMetaFallback]
  cases ht : pyTruthy ((List.lookup f d).getD Value.null) with
  | true =>
    refine exists_ok_of_isOk ?_
    simp [pyGetD, ht, bind, Except.bind, pure, Except.pure, Except.isOk, Except.toBool]
  | false =>
    refine exists_ok_of_isOk ?_
    simp [pyGetD, ht, he, bind, Except.bind, pure, Except.pure, Except.isOk, Except.toBool]

theorem enumErrors_ok (d : List (String × Value))
    (l : List (String × List String)) (h : valueAt d "metadata" isDict = true) :
    ∃ es, WSM.enumErrors (.obj d) l = .ok es := by
  induction l with
  | nil => exact ⟨[], rfl⟩
  | cons p l ih =>
    obtain ⟨f, allowed⟩ := p
    obtain ⟨es, hes⟩ := ih
    obtain ⟨v, hv⟩ := getWithMetaFallback_ok d f h
    refine exists_ok_of_isOk ?_
    rw [WSM.enumErrors]
    simp [hv, hes, bind, Except.bind, pure, Except.pure, Except.isOk, Except.toBool]

theorem typeErrors_ok (d : List (String × Value))
    (l : List (String × PyType)) (h : valueAt d "metadata" isDict = true) :
    ∃ es, WSM.typeErrors (.obj d) l = .ok es := by
  induction l with
  | nil => exact ⟨[], rfl⟩
  | cons p l ih =>
    obtain ⟨f, t⟩ := p
    obtain ⟨es, hes⟩ := ih
    obtain ⟨v, hv⟩ := getWithMetaFallback_ok d f h
    refine exists_ok_of_isOk ?_
    rw [WSM.typeErrors]
    simp [hv, hes, bind, Except.bind, pure, Except.pure, Except.isOk, Except.toBool]

theorem patternErrors_ok (d : List (String × Value))
    (l : List (String × WSM.RegexPat)) :
    ∃ es, WSM.patternErrors (.obj d) l = .ok es := by
  induction l with
  | nil => exact ⟨[], rfl⟩
  | cons p l ih =>
    obtain ⟨f, pat⟩ := p
    obtain ⟨es, hes⟩ := ih
    rw [WSM.patternErrors]
    cases hc : d.any (fun p => p.1 == f) with
    | false =>
      refine exists_ok_of_isOk ?_
      simp [pyContains, hc, hes, bind, Except.bind, pure, Except.pure, Except.isOk, Except.toBool]
    | true =>
      obtain ⟨w, hw⟩ := lookup_of_any hc
      refine exists_ok_of_isOk ?_
      simp [pyContains, pySubscript, hc, hw, hes, bind, Except.bind, pure, Except.pure, Except.isOk, Except.toBool]
theorem tameData_obj {v : Value} (h : tameData v = true) :
    ∃ d, v = .obj d ∧ valueAt d "metadata" isDict = true ∧
      valueAt d "context" isDict = true := by
  cases v with
  | obj d =>
    rw [tameData, Bool.and_eq_true] at h
    exact ⟨d, rfl, h.1, h.2⟩
  | _ => simp [tameData] at h

theorem tameInner_parts {w : Value} (h : tameInner w = true) :
    tameData w = true ∧ locOk w = true := by
  rw [tameInner, Bool.and_eq_true] at h
  exact h

theorem tameRecord_parts {v : Value} (h : tameRecord v = true) :
    tameData v = true ∧ ∃ d, v = .obj d ∧
      ∀ k ∈ schemaKeys, ∀ w, List.lookup k d = some w → tameInner w = true := by
  cases v with
  | obj d =>
    rw [tameRecord, Bool.and_eq_true] at h
    refine ⟨h.1, d, rfl, ?_⟩
    intro k hk w hw
    have := (List.all_eq_true.mp h.2) k hk
    rw [valueAt, hw] at this
    exact this
  | _ => simp [tameRecord] at h

theorem validate_schema_ok (data : Value) (name : String)
    (h1 : tameData data = true)
    (h2 : ∀ d w, data = .obj d → List.lookup name d = some w →
      isDict w = true → tameData w = true) :
    ∃ p, WSM.validate_schema data name = .ok p := by
  obtain ⟨d, rfl, hmd, hctx⟩ := tameData_obj h1
  rw [WSM.validate_schema]
  cases hl : List.lookup name WSM.SCHEMAS with
  | none => exact ⟨_, rfl⟩
  | some schema =>
    cases hc : d.any (fun p => p.1 == name) with
    | false =>
      obtain ⟨e₁, he₁⟩ := requiredErrors_ok d schema.required
      obtain ⟨e₂, he₂⟩ := nestedRequiredErrors_ok d "metadata" schema.metadata_required hmd
      obtain ⟨e₃, he₃⟩ := nestedRequiredErrors_ok d "context" schema.context_required hctx
      obtain ⟨e₄, he₄⟩ := enumErrors_ok d schema.enums hmd
      obtain ⟨e₅, he₅⟩ := patternErrors_ok d schema.patterns
      obtain ⟨e₆, he₆⟩ := typeErrors_ok d schema.types hmd
      refine exists_ok_of_isOk ?_
      simp [pyContains, hc, he₁, he₂, he₃, he₄, he₅, he₆,
        bind, Except.bind, pure, Except.pure, Except.isOk, Except.toBool]
    | true =>
      obtain ⟨w, hw⟩ := lookup_of_any hc
      cases hdict : isDict w with
      | false =>
        obtain ⟨e₁, he₁⟩ := requiredErrors_ok d schema.required
        obtain ⟨e₂, he₂⟩ := nestedRequiredErrors_ok d "metadata" schema.metadata_required hmd
        obtain ⟨e₃, he₃⟩ := nestedRequiredErrors_ok d "context" schema.context_required hctx
        obtain ⟨e₄, he₄⟩ := enumErrors_ok d schema.enums hmd
        obtain ⟨e₅, he₅⟩ := patternErrors_ok d schema.patterns
        obtain ⟨e₆, he₆⟩ := typeErrors_ok d schema.types hmd
        refine exists_ok_of_isOk ?_
        simp [pyContains, pySubscript, hc, hw, hdict, he₁, he₂, he₃, he₄, he₅, he₆,
          bind, Except.bind, pure, Except.pure, Except.isOk, Except.toBool]
      | true =>
        have htw := h2 d w rfl hw hdict
        obtain ⟨dw, rfl, hwmd, hwctx⟩ := tameData_obj htw
        obtain ⟨e₁, he₁⟩ := requiredErrors_ok dw schema.required
        obtain ⟨e₂, he₂⟩ := nestedRequiredErrors_ok dw "metadata" schema.metadata_required hwmd
        obtain ⟨e₃, he₃⟩ := nestedRequiredErrors_ok dw "context" schema.context_required hwctx
        obtain ⟨e₄, he₄⟩ := enumErrors_ok dw schema.enums hwmd
        obtain ⟨e₅, he₅⟩ := patternErrors_ok dw schema.patterns
        obtain ⟨e₆, he₆⟩ := typeErrors_ok dw schema.types hwmd
        refine exists_ok_of_isOk ?_
        simp [pyContains, pySubscript, hc, hw, hdict, isDict, he₁, he₂, he₃, he₄, he₅, he₆,
          bind, Except.bind, pure, Except.pure, Except.isOk, Except.toBool]

set_option maxHeartbeats 2000000 in
theorem detect_schema_ok (d : List (String × Value))
    (hmd : ∃ e, (List.lookup "metadata" d).getD (Value.obj []) = .obj e) :
    ∃ s?, WSM.detect_schema (.obj d) = .ok s? ∧ ∀ s, s? = some s → s ∈ schemaKeys := by
  obtain ⟨e, he⟩ := hmd
  simp only [WSM.detect_schema, pyContains, pyGetD, he, bind, Except.bind, pure, Except.pure]
  split_ifs <;> refine ⟨_, rfl, ?_⟩ <;> intro s hs <;>
    (try cases hs) <;> simp [schemaKeys]
theorem evidenceFileErrors_ok (fexists : String → Bool) (outputs : List Value)
    (h : outputs.all tameRecord = true) :
    ∃ es, WSM.evidenceFileErrors fexists outputs = .ok es := by
  induction outputs with
  | nil => exact ⟨[], rfl⟩
  | cons out rest ih =>
    rw [List.all_cons, Bool.and_eq_true] at h
    obtain ⟨hout, hrest⟩ := h
    obtain ⟨es, hes⟩ := ih hrest
    obtain ⟨htd, d, rfl, hkeys⟩ := tameRecord_parts hout
    rw [WSM.evidenceFileErrors]
    cases hc : d.any (fun p => p.1 == "evidence") with
    | false =>
      refine exists_ok_of_isOk ?_
      simp [pyContains, hc, hes, bind, Except.bind, pure, Except.pure,
        Except.isOk, Except.toBool]
    | true =>
      obtain ⟨w, hw⟩ := lookup_of_any hc
      have hti := hkeys "evidence" (by simp [schemaKeys]) w hw
      obtain ⟨htdw, hloc⟩ := tameInner_parts hti
      obtain ⟨e, rfl, _, _⟩ := tameData_obj htdw
      rw [locOk] at hloc
      cases hl : List.lookup "location" e with
      | none =>
        refine exists_ok_of_isOk ?_
        simp [pyContains, pySubscript, pyGetD, hc, hw, hl, hes, pyTruthy,
          bind, Except.bind, pure, Except.pure, Except.isOk, Except.toBool]
      | some lw =>
        rw [valueAt, hl] at hloc
        cases hlt : pyTruthy lw with
        | false =>
          refine exists_ok_of_isOk ?_
          simp [pyContains, pySubscript, pyGetD, hc, hw, hl, hlt, hes,
            bind, Except.bind, pure, Except.pure, Except.isOk, Except.toBool]
        | true =>
          simp only [hlt, Bool.not_true, Bool.false_or] at hloc
          cases lw with
          | str sl =>
            refine exists_ok_of_isOk ?_
            simp [pyContains, pySubscript, pyGetD, hc, hw, hl, hlt, hes,
              bind, Except.bind, pure, Except.pure, Except.isOk, Except.toBool]
          | _ => simp at hloc
  
theorem gateScan_ok (outputs : List Value)
    (h : outputs.all tameRecord = true) :
    ∃ p, WSM.gateScan outputs = .ok p := by
  induction outputs with
  | nil => exact ⟨([], []), rfl⟩
  | cons out rest ih =>
    rw [List.all_cons, Bool.and_eq_true] at h
    obtain ⟨hout, hrest⟩ := h
    obtain ⟨p, hp⟩ := ih hrest
    obtain ⟨htd, d, rfl, hkeys⟩ := tameRecord_parts hout
    obtain ⟨dd, hdd, hmd, hctx⟩ := tameData_obj htd
    cases hdd
    have hmde : ∃ e, (List.lookup "metadata" d).getD (Value.obj []) = .obj e :=
      objDefault_of_valueAt hmd
    obtain ⟨s?, hdet, hspec⟩ := detect_schema_ok d hmde
    rw [WSM.gateScan]
    cases s? with
    | none =>
      refine exists_ok_of_isOk ?_
      simp [hdet, hp, bind, Except.bind, pure, Except.pure, Except.isOk, Except.toBool]
    | some s =>
      have hs := hspec s rfl
      obtain ⟨q, hq⟩ := validate_schema_ok (.obj d) s htd
        (fun d' w hd' hw hdict => by
          cases hd'
          exact (tameInner_parts (hkeys s hs w hw)).1)
      obtain ⟨valid, errs⟩ := q
      refine exists_ok_of_isOk ?_
      simp [hdet, hq, hp, bind, Except.bind, pure, Except.pure, Except.isOk, Except.toBool]

theorem quality_gate_ok (stage : WSM.Stage) (outputs : List Value)
    (fexists : String → Bool) (retry : Nat)
    (h : outputs.all tameRecord = true) :
    ∃ r, WSM.quality_gate stage outputs fexists retry = .ok r := by
  obtain ⟨p, hp⟩ := gateScan_ok outputs h
  obtain ⟨checked, errs₁⟩ := p
  obtain ⟨es, hes⟩ := evidenceFileErrors_ok fexists outputs h
  refine exists_ok_of_isOk ?_
  rw [WSM.quality_gate]
  simp [hp, hes, bind, Except.bind, pure, Except.pure, Except.isOk, Except.toBool]

/-- Counterexample to claim C7: gate evaluation can raise on malformed
input.  A non-dict output (the integer 5) makes `detect_schema` raise
`TypeError` inside `quality_gate`, and `validate` applied to a non-record
input with a known schema raises rather than returning a single
explanatory error. -/
theorem C7_malformed_input_counterexample :
    (∃ e, WSM.quality_gate .PLAN [Value.num 5] noFile 0 = .error e) ∧
    (∃ e, WSM.validate_schema (Value.num 5) "todo" = .error e) :=
  ⟨⟨_, rfl⟩, ⟨_, rfl⟩⟩

/-- Claim C7 as amended: gate evaluation returns a GateResult — and cannot
raise — on every outputs list whose entries are records with record-valued
`metadata`/`context` members and whose schema-wrapper values are themselves
such records with a string `location` when truthy (`tameRecord`);
unmatched records contribute nothing.  `validate` with an unknown schema
name returns `valid = false` with exactly one explanatory error, before
touching the data; but a non-record input under a known schema raises
instead of returning an error. -/
theorem C7_malformed_input_amended :
    (∀ (stage : WSM.Stage) (outputs : List Value) (fexists : String → Bool) (retry : Nat),
      outputs.all tameRecord = true →
      ∃ r, WSM.quality_gate stage outputs fexists retry = .ok r) ∧
    (∀ (data : Value) (name : String), List.lookup name WSM.SCHEMAS = none →
      WSM.validate_schema data name = .ok (false, ["Unknown schema: " ++ name])) := by
  constructor
  · intro stage outputs fexists retry h
    exact quality_gate_ok stage outputs fexists retry h
  · intro data name h
    rw [WSM.validate_schema, h]

/-- Witness for the amended C7: the stub todo is a tame record, so the
PLAN gate returns a result on it; and validating the non-record integer 5
against the unknown schema name `"nosuch"` yields the single explanatory
error. -/
theorem C7_malformed_input_amended_witness :
    ([minimalTodoStub].all tameRecord = true ∧
      ∃ r, WSM.quality_gate .PLAN [minimalTodoStub] noFile 0 = .ok r) ∧
    (List.lookup "nosuch" WSM.SCHEMAS = none ∧
      WSM.validate_schema (Value.num 5) "nosuch" = .ok (false, ["Unknown schema: nosuch"])) :=
  ⟨⟨rfl, C7_malformed_input_amended.1 .PLAN [minimalTodoStub] noFile 0 rfl⟩,
   ⟨rfl, C7_malformed_input_amended.2 (Value.num 5) "nosuch" rfl⟩⟩
